import Mathlib

/-!
Verification development for the Mentor-Dashboard session-change
orchestration layer.

The definitions below are a shallow embedding of the TypeScript route
handlers:

* `src/unnamed/part_000`                            — POST /api/session/swap-mentor
  (conflict scan, swapped_mentor_id update);
* `src/app/api/cohort/session-update/route.ts`      — POST session-update
  orchestrator (meeting lifecycle, notification dispatch, flag reset),
  `parseCohortFromTableName`, `sendUpdateNotifications`,
  `formatPhoneForWhatsApp`, meeting window computation;
* `src/app/api/mentor/session-material/route.ts`    — POST/GET link merge,
  PUT link delete;
* `src/unnamed/part_001`                            — the swap-specific
  60-minute meeting window.

External collaborators (Supabase persistence, MS Graph meeting provider,
email/WhatsApp channels) are modelled as explicit data: the schedule
database is a list of tables of rows, and the outcome of each external
call is an oracle carried in an `Ext` record.  JavaScript truthiness on
nullable columns is modelled explicitly (`Option` plus emptiness /
zero checks).
-/

/-! ## JavaScript value helpers -/

/-- JS truthiness of a nullable number (`null`/`undefined`/`0` are falsy). -/
def jsTruthyNat : Option Nat → Bool
  | none => false
  | some n => !(n == 0)

/-- JS truthiness of a nullable string (`null`/`undefined`/`""` are falsy). -/
def jsTruthyStr : Option String → Bool
  | none => false
  | some s => !(s == "")

/-- The string itself when truthy, `none` otherwise (models `if (s) { ... use s }`). -/
def jsTruthyStrOpt : Option String → Option String
  | none => none
  | some s => if s == "" then none else some s

/-- JS `a || b` on nullable numbers: `b` when `a` is falsy. -/
def jsOrNat (a b : Option Nat) : Option Nat :=
  if jsTruthyNat a then a else b

/-- JS `a ?? b` (nullish coalescing) on nullable numbers. -/
def jsNullishNat (a b : Option Nat) : Option Nat :=
  match a with
  | none => b
  | some n => some n

/-! ## Data model

`SessionRow` is one row of a schedule table (DB B).  Nullable columns are
`Option`; `email_sent`/`whatsapp_sent` are booleans (a `null` column behaves
as `false` under the code's `=== true` checks). -/

structure SessionRow where
  id : Nat
  date : String
  time : String
  mentor_id : Option Nat
  swapped_mentor_id : Option Nat
  session_type : Option String
  teams_meeting_link : Option String
  email_sent : Bool
  whatsapp_sent : Bool
  subject_name : Option String
  initial_session_material : Option String
  session_material : Option String
  deriving Repr, DecidableEq

/-- One schedule table of DB B, as enumerated by the `get_schedule_tables` RPC. -/
structure ScheduleTable where
  name : String
  rows : List SessionRow
  deriving Repr, DecidableEq

/-- Mentor Details row (DB B). -/
structure MentorRow where
  mentor_id : Nat
  mname : Option String
  email : Option String
  mobile : Option String
  deriving Repr, DecidableEq

/-- Onboarding row (main DB): a cohort student. -/
structure StudentRow where
  fullName : Option String
  email : Option String
  phone : Option String
  cohortType : String
  cohortNumber : String
  deriving Repr, DecidableEq

/-- supermentor_details row (main DB): an administrator. -/
structure SupermentorRow where
  sname : Option String
  email : Option String
  phone_num : Option String
  deriving Repr, DecidableEq

/-- The external read-only directories consulted by the notification code. -/
structure Env where
  students : List StudentRow
  mentors : List MentorRow
  supermentors : List SupermentorRow

/-- Outcome oracles for the external collaborators: whether the MS Graph
token can be obtained (`getAccessToken` does not throw), what
`deleteTeamsMeeting` returns, what join URL `createTeamsMeeting` yields
(`none` = creation failed), and per-recipient success of the two
notification channels. -/
structure ExtCalls where
  tokenOk : Bool
  deleteOk : Bool
  createLink : Option String
  emailOk : String → Bool
  waOk : String → Bool

/-! ## Cohort / table-name parsing

`parseCohortFromTableName` (route.ts lines 400-412) strips the first
occurrence of `"_schedule"` and matches `^([a-zA-Z]+)(\d+)_(\d+)$`.
The greedy character-class scans below are equivalent to the regex because
the letter, digit and `'_'` classes are disjoint. -/

def isAsciiAlpha (c : Char) : Bool :=
  (('a' ≤ c && c ≤ 'z') || ('A' ≤ c && c ≤ 'Z'))

/-- JS `charAt(0).toUpperCase() + slice(1)`. -/
def capitalizeFirst (s : String) : String :=
  match s.toList with
  | [] => s
  | c :: rest => String.mk (c.toUpper :: rest)

/-- Whether `p` is an initial segment of `cs`. -/
def startsWithList : List Char → List Char → Bool
  | [], _ => true
  | _ :: _, [] => false
  | p :: ps, c :: cs => p == c && startsWithList ps cs

/-- Remove the first occurrence of pattern `p` from `cs` (JS `String.replace`
with a string pattern replaces only the first occurrence). -/
def removeFirstList (p : List Char) : List Char → List Char
  | [] => []
  | c :: cs =>
    if startsWithList p (c :: cs) then (c :: cs).drop p.length
    else c :: removeFirstList p cs

/-- JS `s.replace(pat, "")` for a plain-string pattern. -/
def replaceFirstWithEmpty (s pat : String) : String :=
  String.mk (removeFirstList pat.toList s.toList)

/-- Match `^([a-zA-Z]+)(\d+)_(\d+)$` returning the three capture groups. -/
def matchCohortCore (cs : List Char) : Option (List Char × List Char × List Char) :=
  let alpha := cs.takeWhile isAsciiAlpha
  let rest1 := cs.dropWhile isAsciiAlpha
  let major := rest1.takeWhile Char.isDigit
  let rest2 := rest1.dropWhile Char.isDigit
  match alpha, major, rest2 with
  | [], _, _ => none
  | _, [], _ => none
  | _ :: _, _ :: _, u :: rest3 =>
    if u == '_' then
      let minor := rest3.takeWhile Char.isDigit
      let rest4 := rest3.dropWhile Char.isDigit
      if !minor.isEmpty && rest4.isEmpty then some (alpha, major, minor) else none
    else none
  | _, _, [] => none

/-- Cohort identity parsed from a schedule table name. -/
structure CohortInfo where
  ctype : String
  cnumber : String
  deriving Repr, DecidableEq

/-- route.ts `parseCohortFromTableName`. -/
def parseCohortFromTableName (tableName : String) : Option CohortInfo :=
  let name := replaceFirstWithEmpty tableName ("_schedule")
  match matchCohortCore name.toList with
  | none => none
  | some (alpha, major, minor) =>
    some ⟨capitalizeFirst (String.mk alpha), String.mk major ++ "." ++ String.mk minor⟩

/-- part_000 batch-name regex `^([a-zA-Z]+)(\d+)_(\d+)_schedule$`:
the core match must be followed by the literal `"_schedule"`. -/
def matchBatchSchedule (cs : List Char) : Option (List Char × List Char × List Char) :=
  let alpha := cs.takeWhile isAsciiAlpha
  let rest1 := cs.dropWhile isAsciiAlpha
  let major := rest1.takeWhile Char.isDigit
  let rest2 := rest1.dropWhile Char.isDigit
  match alpha, major, rest2 with
  | [], _, _ => none
  | _, [], _ => none
  | _ :: _, _ :: _, u :: rest3 =>
    if u == '_' then
      let minor := rest3.takeWhile Char.isDigit
      let rest4 := rest3.dropWhile Char.isDigit
      if !minor.isEmpty && rest4 == ("_schedule").toList then some (alpha, major, minor)
      else none
    else none
  | _, _, [] => none

/-- part_000 lines 81-84: display batch name derived from the table name. -/
def formatBatchName (tableName : String) : String :=
  match matchBatchSchedule tableName.toList with
  | some (alpha, major, minor) =>
    capitalizeFirst (String.mk alpha) ++ " " ++ String.mk major ++ "." ++ String.mk minor
  | none => replaceFirstWithEmpty tableName ("_schedule")

/-! ## Session store adapter

Supabase `.select(...).eq('id', id).single()` errors when zero or more than
one row matches; `.update(...).eq('id', id)` patches every matching row. -/

def singleOf : List SessionRow → Option SessionRow
  | [r] => some r
  | _ => none

def rowsWithId (rows : List SessionRow) (sid : Nat) : List SessionRow :=
  rows.filter (fun r => r.id == sid)

/-- `.single()` read of the row with the given id. -/
def singleRow (rows : List SessionRow) (sid : Nat) : Option SessionRow :=
  singleOf (rowsWithId rows sid)

def findTable (db : List ScheduleTable) (name : String) : Option ScheduleTable :=
  db.find? (fun t => t.name == name)

/-- `supabase.from(tableName).select('*').eq('id', sessionId).single()`. -/
def findSession (db : List ScheduleTable) (tableName : String) (sid : Nat) :
    Option SessionRow :=
  match findTable db tableName with
  | none => none
  | some t => singleRow t.rows sid

/-- `supabase.from(tableName).update(patch).eq('id', sessionId)`. -/
def updateRow (db : List ScheduleTable) (tableName : String) (sid : Nat)
    (patch : SessionRow → SessionRow) : List ScheduleTable :=
  db.map (fun t =>
    if t.name == tableName then
      { t with rows := t.rows.map (fun r => if r.id == sid then patch r else r) }
    else t)

/-! ## Conflict Detector (part_000 lines 39-106) -/

/-- part_000 lines 73-79: is the candidate mentor busy on this row?
`isOriginalMentor && !isSwappedAway` simplifies to "original owner with no
covering mentor"; `isSwappedMentor` is "currently covering this row". -/
def isBusy (cand : Nat) (row : SessionRow) : Bool :=
  let isOriginalMentor := row.mentor_id == some cand
  let isSwappedMentor := row.swapped_mentor_id == some cand
  let isSwappedAway := isOriginalMentor && !(row.swapped_mentor_id == none)
  (isOriginalMentor && !isSwappedAway) || isSwappedMentor

/-- Structured detail returned with a 409 Conflict. -/
structure ConflictInfo where
  tableName : String
  batchName : String
  subjectName : String
  deriving Repr, DecidableEq

/-- Inner loop of the conflict scan: first busy row in this table's slot,
skipping the session being edited. -/
def findBusyRow (selfTable : String) (selfId : Nat) (cand : Nat) (tname : String) :
    List SessionRow → Option SessionRow
  | [] => none
  | r :: rs =>
    if tname == selfTable && r.id == selfId then findBusyRow selfTable selfId cand tname rs
    else if isBusy cand r then some r
    else findBusyRow selfTable selfId cand tname rs

/-- Outer loop of the conflict scan: tables in enumeration order, each
filtered to the session's `(date, time)` slot; first hit wins. -/
def detectConflict (db : List ScheduleTable) (cand : Nat) (date time : String)
    (selfTable : String) (selfId : Nat) : Option ConflictInfo :=
  match db with
  | [] => none
  | t :: ts =>
    let atSlot := t.rows.filter (fun r => r.date == date && r.time == time)
    match findBusyRow selfTable selfId cand t.name atSlot with
    | some r => some ⟨t.name, formatBatchName t.name, r.subject_name.getD ("Session")⟩
    | none => detectConflict ts cand date time selfTable selfId

/-! ## POST /api/session/swap-mentor (part_000)

The handler fetches the session, scans for conflicts when swapping *to* a
mentor, and only then issues the `swapped_mentor_id` store update.  The
follow-on Step 2 (calling the session-update endpoint) is a separate HTTP
request modelled by `sessionUpdatePOST` below. -/

structure SwapRequest where
  tableName : String
  sessionId : Nat
  swappedMentorId : Option Nat

inductive SwapResponse where
  | badRequest
  | notFound
  | conflict (info : ConflictInfo)
  | success
  deriving Repr, DecidableEq

def swapMentorPOST (db : List ScheduleTable) (req : SwapRequest) :
    SwapResponse × List ScheduleTable :=
  if req.tableName == "" || req.sessionId == 0 then (.badRequest, db)
  else
    match findSession db req.tableName req.sessionId with
    | none => (.notFound, db)
    | some session =>
      let hit :=
        match req.swappedMentorId with
        | some cand =>
          if cand ≠ 0 then
            detectConflict db cand session.date session.time req.tableName req.sessionId
          else none
        | none => none
      match hit with
      | some info => (.conflict info, db)
      | none =>
        (.success,
         updateRow db req.tableName req.sessionId
           (fun r => { r with swapped_mentor_id :=
             (if jsTruthyNat req.swappedMentorId then req.swappedMentorId else none) }))

/-! ## Phone normalization (route.ts lines 14-29) -/

/-- `formatPhoneForWhatsApp`: strip non-digits, prefix `"91"` to 10-digit
local numbers, accept 10-15 digit results. -/
def formatPhoneForWhatsApp (phone : Option String) : Option String :=
  match phone with
  | none => none
  | some s =>
    if s == "" then none
    else
      let digits := String.mk (s.toList.filter Char.isDigit)
      let normalized := if digits.length == 10 then "91" ++ digits else digits
      if 10 ≤ normalized.length ∧ normalized.length ≤ 15 then some normalized else none

/-! ## Notification dispatcher (route.ts `sendUpdateNotifications`, lines 569-1145)

A `Send` records one attempted send (the code fires the channel call and
then inspects its boolean result; counters/flags record successes via the
`ExtCalls` oracles, the `Send` list records who was contacted at all). -/

inductive UpdateType where
  | reschedule
  | mentor_removed
  | mentor_assigned
  | details_updated
  deriving Repr, DecidableEq

/-- route.ts lines 1451-1459: classification of the change. -/
def computeUpdateType (changedField : Option String) : UpdateType :=
  if changedField == some ("date") || changedField == some ("time") then .reschedule
  else if changedField == some ("mentor_id") || changedField == some ("swapped_mentor_id") then
    .details_updated
  else if changedField == some ("subject_name") || changedField == some ("session_type")
      || changedField == some ("subject_topic") then .details_updated
  else .reschedule

inductive Audience where
  | student
  | originalMentor
  | swappedMentor
  | oldSwappedMentor
  | currentMentor
  | oldMentor
  | newMentor
  | supermentor
  deriving Repr, DecidableEq

inductive Channel where
  | email
  | whatsapp
  deriving Repr, DecidableEq

structure Send where
  channel : Channel
  audience : Audience
  sendTo : String
  deriving Repr, DecidableEq

structure NotifyResult where
  studentsSent : Nat
  mentorSent : Bool
  supermentorsSent : Nat
  waStudents : Nat
  waMentor : Bool
  waSupermentors : Nat
  oldMentorNotified : Bool
  newMentorNotified : Bool
  originalMentorNotified : Bool
  swappedMentorNotified : Bool
  deriving Repr, DecidableEq

def zeroNotifyResult : NotifyResult :=
  ⟨0, false, 0, 0, false, 0, false, false, false, false⟩

def singleMentor : List MentorRow → Option MentorRow
  | [m] => some m
  | _ => none

/-- `.from('Mentor Details').eq('mentor_id', id).single()`. -/
def lookupMentor (env : Env) (mid : Nat) : Option MentorRow :=
  singleMentor (env.mentors.filter (fun m => m.mentor_id == mid))

/-- Mentor lookup guarded by JS truthiness of the id (`if (id) { ...fetch }`). -/
def mentorIfTruthy (env : Env) (o : Option Nat) : Option MentorRow :=
  match o with
  | some n => if n == 0 then none else lookupMentor env n
  | none => none

/-- An email is attempted exactly when the address is truthy. -/
def emailAttempt (aud : Audience) (addr : Option String) : List Send :=
  match jsTruthyStrOpt addr with
  | some m => [⟨Channel.email, aud, m⟩]
  | none => []

/-- A WhatsApp message is attempted exactly when the phone normalizes. -/
def waAttempt (aud : Audience) (phone : Option String) : List Send :=
  match formatPhoneForWhatsApp phone with
  | some p => [⟨Channel.whatsapp, aud, p⟩]
  | none => []

def emailOkCount (ext : ExtCalls) (addr : Option String) : Nat :=
  match jsTruthyStrOpt addr with
  | some m => if ext.emailOk m then 1 else 0
  | none => 0

def waOkCount (ext : ExtCalls) (phone : Option String) : Nat :=
  match formatPhoneForWhatsApp phone with
  | some p => if ext.waOk p then 1 else 0
  | none => 0

/-- The mentor together with its truthy email, when both are present
(`if (mentor && mentor['Email address'])`). -/
def mentorEmailTruthy (m : Option MentorRow) : Option (MentorRow × String) :=
  match m with
  | some mm =>
    match jsTruthyStrOpt mm.email with
    | some e => some (mm, e)
    | none => none
  | none => none

/-- A mentor-audience block: email send, then WhatsApp if the phone
normalizes, all inside the email-truthiness guard. -/
def mentorBlockSends (aud : Audience) (m : Option MentorRow) : List Send :=
  match mentorEmailTruthy m with
  | some (mm, e) => Send.mk Channel.email aud e :: waAttempt aud mm.mobile
  | none => []

def mentorEmailNotified (ext : ExtCalls) (m : Option MentorRow) : Bool :=
  match mentorEmailTruthy m with
  | some (_, e) => ext.emailOk e
  | none => false

def mentorWaNotified (ext : ExtCalls) (m : Option MentorRow) : Bool :=
  match mentorEmailTruthy m with
  | some (mm, _) =>
    match formatPhoneForWhatsApp mm.mobile with
    | some p => ext.waOk p
    | none => false
  | none => false

structure NotifyParams where
  tableName : String
  session : SessionRow
  oldDate : String
  oldTime : String
  newDate : String
  newTime : String
  updateType : UpdateType
  oldMentorId : Option Nat
  newMentorId : Option Nat
  newMeetingLink : Option String
  changedField : Option String

/-- Students of the cohort (`onboarding` filtered on cohort type/number). -/
def cohortStudents (env : Env) (c : CohortInfo) : List StudentRow :=
  env.students.filter (fun s => s.cohortType == c.ctype && s.cohortNumber == c.cnumber)

/-- route.ts `sendUpdateNotifications`.  Returns the result record the code
returns plus the ordered list of attempted sends.  An unparseable table
name returns the zero-initialised result immediately (lines 613-617). -/
def sendUpdateNotifications (env : Env) (ext : ExtCalls) (p : NotifyParams) :
    NotifyResult × List Send :=
  match parseCohortFromTableName p.tableName with
  | none => (zeroNotifyResult, [])
  | some cohort =>
    let isSwapChange := p.changedField == some ("swapped_mentor_id")
    let students := cohortStudents env cohort
    let effectiveMentorId := jsNullishNat p.session.swapped_mentor_id p.session.mentor_id
    let currentMentor := mentorIfTruthy env effectiveMentorId
    let originalMentor := if isSwapChange then mentorIfTruthy env p.session.mentor_id else none
    let swappedMentor := if isSwapChange then mentorIfTruthy env p.newMentorId else none
    let oldSwappedMentor := if isSwapChange then mentorIfTruthy env p.oldMentorId else none
    let oldMentor :=
      if jsTruthyNat p.oldMentorId && !(p.oldMentorId == effectiveMentorId) && !isSwapChange
      then mentorIfTruthy env p.oldMentorId else none
    let newMentor :=
      if jsTruthyNat p.newMentorId
          && !(p.newMentorId == jsOrNat p.oldMentorId p.session.mentor_id)
          && !isSwapChange
      then mentorIfTruthy env p.newMentorId else none
    let studentsActive :=
      !students.isEmpty
        && (p.updateType == UpdateType.reschedule || p.updateType == UpdateType.details_updated)
    let studentSends :=
      if studentsActive then
        students.flatMap (fun st => emailAttempt .student st.email ++ waAttempt .student st.phone)
      else []
    let studentsSent :=
      if studentsActive then (students.map (fun st => emailOkCount ext st.email)).sum else 0
    let waStudents :=
      if studentsActive then (students.map (fun st => waOkCount ext st.phone)).sum else 0
    let oldSwappedSends :=
      match mentorEmailTruthy oldSwappedMentor with
      | some (osm, e) =>
        if (match swappedMentor with
            | some sm => !(osm.mentor_id == sm.mentor_id)
            | none => true)
        then Send.mk Channel.email Audience.oldSwappedMentor e :: waAttempt .oldSwappedMentor osm.mobile
        else []
      | none => []
    let midSends :=
      if isSwapChange then
        mentorBlockSends .originalMentor originalMentor
          ++ mentorBlockSends .swappedMentor swappedMentor
          ++ oldSwappedSends
      else mentorBlockSends .currentMentor currentMentor
    let originalMentorNotified :=
      if isSwapChange then mentorEmailNotified ext originalMentor else false
    let swappedMentorNotified :=
      if isSwapChange then mentorEmailNotified ext swappedMentor else false
    let mentorSent := if isSwapChange then false else mentorEmailNotified ext currentMentor
    let waMentor := if isSwapChange then false else mentorWaNotified ext currentMentor
    let oldMentorSends := mentorBlockSends .oldMentor oldMentor
    let oldMentorNotified := mentorEmailNotified ext oldMentor
    let newMentorSends := mentorBlockSends .newMentor newMentor
    let newMentorNotified := mentorEmailNotified ext newMentor
    let superSends :=
      env.supermentors.flatMap
        (fun sm => emailAttempt .supermentor sm.email ++ waAttempt .supermentor sm.phone_num)
    let supermentorsSent := (env.supermentors.map (fun sm => emailOkCount ext sm.email)).sum
    let waSupermentors := (env.supermentors.map (fun sm => waOkCount ext sm.phone_num)).sum
    (⟨studentsSent, mentorSent, supermentorsSent, waStudents, waMentor, waSupermentors,
      oldMentorNotified, newMentorNotified, originalMentorNotified, swappedMentorNotified⟩,
     studentSends ++ midSends ++ oldMentorSends ++ newMentorSends ++ superSends)

/-! ## Meeting window computation

route.ts lines 1289-1295: the start string is `date + "T" + time + ":00"`;
the end string is built from the *same* `effectiveDate` and the clock time
of `start + 90 minutes` (`setMinutes(+90)` then `toTimeString().slice(0,8)`),
i.e. the end's clock time is `(t + 90) mod 1440` but its calendar date is
the start's date.  We interpret a datetime string `<day>T<clock>` as
`day * 1440 + clock` minutes. -/

def endClockMinutes (t : Nat) : Nat := (t + 90) % 1440

def meetingStartAbs (day t : Nat) : Nat := day * 1440 + t

def meetingEndAbs (day t : Nat) : Nat := day * 1440 + endClockMinutes t

/-- part_001 lines 527-530: the swap flow's end is genuinely
`start + 60 minutes` (`new Date(start.getTime() + 60*60000).toISOString()`). -/
def swapMeetingEndAbs (startAbs : Nat) : Nat := startAbs + 60

/-! ## Session Change Orchestrator (route.ts `POST`, lines 1149-1534) -/

inductive Step where
  | meetingDelete
  | meetingCreate
  | linkCleared
  | notify
  | flagsReset
  deriving Repr, DecidableEq

structure UpdateResults where
  meetingDeleted : Bool
  meetingCreated : Bool
  newMeetingLink : Option String
  meetingLinkCleared : Bool
  notificationsSent : NotifyResult
  deriving Repr, DecidableEq

inductive UpdateStatus where
  | badRequest
  | notFound
  | ok
  deriving Repr, DecidableEq

/-- Request body of the session-update POST.  `oldValue`/`newValue` are only
ever consumed as mentor ids (`effectiveOldMentorId`/`effectiveNewMentorId`),
so they are modelled at that type. -/
structure UpdateRequest where
  tableName : String
  sessionId : Nat
  oldDate : Option String := none
  oldTime : Option String := none
  newDate : Option String := none
  newTime : Option String := none
  skipMeetingRegeneration : Bool := false
  changedField : Option String := none
  oldValue : Option Nat := none
  newValue : Option Nat := none
  oldMentorId : Option Nat := none
  newMentorId : Option Nat := none
  oldSessionType : Option String := none
  newSessionType : Option String := none
  isNewSession : Bool := false

/-- JS `toLowerCase` character by character. -/
def jsToLower (s : String) : String :=
  String.mk (s.toList.map Char.toLower)

/-- `x && x.toLowerCase() === 'contest'` on a nullable string column. -/
def isContestStr (o : Option String) : Bool :=
  match jsTruthyStrOpt o with
  | some s => jsToLower s == "contest"
  | none => false

structure MeetingPhaseOut where
  db : List ScheduleTable
  meetingDeleted : Bool
  meetingCreated : Bool
  newMeetingLink : Option String
  meetingLinkCleared : Bool
  steps : List Step

/-- Step 1 of the orchestrator (route.ts lines 1239-1448): contest branch,
regeneration branch, new-session branch.  A failing `getAccessToken`
(`tokenOk = false`) throws into the surrounding catch, so that branch
performs no store update. -/
def meetingPhase (ext : ExtCalls) (db : List ScheduleTable) (req : UpdateRequest)
    (session : SessionRow) (isContest changedToContest : Bool) : MeetingPhaseOut :=
  if isContest then
    if changedToContest && jsTruthyStr session.teams_meeting_link then
      if ext.tokenOk then
        ⟨updateRow db req.tableName req.sessionId (fun r => { r with teams_meeting_link := none }),
         ext.deleteOk, false, none, true, [Step.meetingDelete, Step.linkCleared]⟩
      else ⟨db, false, false, none, false, []⟩
    else ⟨db, false, false, none, false, []⟩
  else if jsTruthyStr session.teams_meeting_link && !req.skipMeetingRegeneration then
    if ext.tokenOk then
      match ext.createLink with
      | some l =>
        ⟨updateRow db req.tableName req.sessionId (fun r => { r with teams_meeting_link := some l }),
         ext.deleteOk, true, some l, false, [Step.meetingDelete, Step.meetingCreate]⟩
      | none => ⟨db, ext.deleteOk, false, none, false, [Step.meetingDelete, Step.meetingCreate]⟩
    else ⟨db, false, false, none, false, []⟩
  else if req.isNewSession && !(jsTruthyStr session.teams_meeting_link) && !isContest then
    if ext.tokenOk then
      match ext.createLink with
      | some l =>
        ⟨updateRow db req.tableName req.sessionId (fun r => { r with teams_meeting_link := some l }),
         false, true, some l, false, [Step.meetingCreate]⟩
      | none => ⟨db, false, false, none, false, [Step.meetingCreate]⟩
    else ⟨db, false, false, none, false, []⟩
  else ⟨db, false, false, none, false, []⟩

structure PostOut where
  status : UpdateStatus
  results : UpdateResults
  db : List ScheduleTable
  steps : List Step
  sends : List Send

def emptyResults : UpdateResults := ⟨false, false, none, false, zeroNotifyResult⟩

/-- JS `a || b` on a nullable string versus a plain string default. -/
def jsOrStr (a : Option String) (b : String) : String :=
  match jsTruthyStrOpt a with
  | some s => s
  | none => b

/-- The session-update orchestrator: fetch, meeting phase, notification
gate + dispatch, flag reset — emitting the executed `Step`s in order. -/
def sessionUpdatePOST (env : Env) (ext : ExtCalls) (db : List ScheduleTable)
    (req : UpdateRequest) : PostOut :=
  if req.tableName == "" || req.sessionId == 0 then ⟨.badRequest, emptyResults, db, [], []⟩
  else
    match findSession db req.tableName req.sessionId with
    | none => ⟨.notFound, emptyResults, db, [], []⟩
    | some session =>
      let currentIsContest := isContestStr session.session_type
      let changedToContest := isContestStr req.newSessionType
      let isContest := currentIsContest || changedToContest
      let mentorChanged :=
        req.changedField == some ("mentor_id") || req.changedField == some ("swapped_mentor_id")
      let effectiveOldMentorId := jsOrNat req.oldMentorId (if mentorChanged then req.oldValue else none)
      let effectiveNewMentorId := jsOrNat req.newMentorId (if mentorChanged then req.newValue else none)
      let mp := meetingPhase ext db req session isContest changedToContest
      let updateType := computeUpdateType req.changedField
      let isSwapChange := req.changedField == some ("swapped_mentor_id")
      let shouldSend := isSwapChange || session.email_sent || session.whatsapp_sent
      let notifyOut :=
        if shouldSend then
          sendUpdateNotifications env ext
            { tableName := req.tableName
              session := session
              oldDate := jsOrStr req.oldDate session.date
              oldTime := jsOrStr req.oldTime (jsOrStr (some session.time) ("19:00"))
              newDate := jsOrStr req.newDate session.date
              newTime := jsOrStr req.newTime (jsOrStr (some session.time) ("19:00"))
              updateType := updateType
              oldMentorId := effectiveOldMentorId
              newMentorId := effectiveNewMentorId
              newMeetingLink := mp.newMeetingLink
              changedField := req.changedField }
        else (zeroNotifyResult, [])
      let preFlags := session.email_sent || session.whatsapp_sent
      let db2 :=
        if preFlags then
          updateRow mp.db req.tableName req.sessionId
            (fun r => { r with email_sent := false, whatsapp_sent := false })
        else mp.db
      let steps :=
        mp.steps ++ (if shouldSend then [Step.notify] else [])
          ++ (if preFlags then [Step.flagsReset] else [])
      ⟨.ok,
       ⟨mp.meetingDeleted, mp.meetingCreated, mp.newMeetingLink, mp.meetingLinkCleared, notifyOut.1⟩,
       db2, steps, notifyOut.2⟩

/-! ## Session materials (session-material/route.ts)

Link lists are stored comma-joined; parsing splits on `','`, trims, and
drops empties (lines 48-52, 134-146, 195-207). -/

/-- JS `String.trim` (ASCII whitespace, which covers the link strings here). -/
def isTrimWS (c : Char) : Bool :=
  c == ' ' || c == '\t' || c == '\n' || c == '\r'

def jsTrim (s : String) : String :=
  String.mk (((s.toList.dropWhile isTrimWS).reverse.dropWhile isTrimWS).reverse)

/-- JS `split(',')` on the underlying character list. -/
def splitOnCommaAux : List Char → List Char → List (List Char)
  | [], acc => [acc.reverse]
  | c :: cs, acc =>
    if c == ',' then acc.reverse :: splitOnCommaAux cs []
    else splitOnCommaAux cs (c :: acc)

def splitOnComma (s : String) : List String :=
  (splitOnCommaAux s.toList []).map String.mk

/-- Parse a stored material column into its link list. -/
def parseLinks (s : Option String) : List String :=
  ((splitOnComma (s.getD (""))).map jsTrim).filter (fun l => !(l == ""))

/-- GET merge (lines 148-154): start from `base`, append each link of
`extra` not already present. -/
def mergeLinks (base extra : List String) : List String :=
  extra.foldl (fun acc l => if l ∈ acc then acc else acc ++ [l]) base

/-- POST merge (lines 54-61): same, but each new link is trimmed and
skipped when empty. -/
def mergeNewLinks (base newLinks : List String) : List String :=
  newLinks.foldl
    (fun acc l =>
      let t := jsTrim l
      if !(t == "") ∧ t ∉ acc then acc ++ [t] else acc)
    base

/-- First-occurrence deduplication: the merge run from an empty accumulator. -/
def dedupeLinks (l : List String) : List String := mergeLinks [] l

/-- PUT column selection (lines 209-225): remove the link from
`initial_session_material` when present there, else from
`session_material`, else report not-found. -/
inductive DeleteOutcome where
  | fromInitial (newInitial : String)
  | fromSession (newSession : String)
  | linkNotFound
  deriving Repr, DecidableEq

def deleteMaterialLink (initialCol sessionCol : Option String) (linkToDelete : String) :
    DeleteOutcome :=
  let initialLinks := parseLinks initialCol
  let sessionLinks := parseLinks sessionCol
  if linkToDelete ∈ initialLinks then
    .fromInitial (String.intercalate (", ") (initialLinks.filter (fun l => !(l == linkToDelete))))
  else if linkToDelete ∈ sessionLinks then
    .fromSession (String.intercalate (", ") (sessionLinks.filter (fun l => !(l == linkToDelete))))
  else .linkNotFound

/-- The PUT handler's effect on the fetched row: the update patch touches
exactly the selected column (lines 210-232); a miss is a 404 with no
update issued. -/
def putSessionMaterial (row : SessionRow) (linkToDelete : String) :
    Option (SessionRow × String) :=
  match deleteMaterialLink row.initial_session_material row.session_material linkToDelete with
  | .fromInitial s => some ({ row with initial_session_material := some s }, "initial_session_material")
  | .fromSession s => some ({ row with session_material := some s }, "session_material")
  | .linkNotFound => none

/-! ## Helper lemmas -/

theorem find?_map_name (f : ScheduleTable → ScheduleTable) (hf : ∀ t, (f t).name = t.name)
    (nm : String) : ∀ db : List ScheduleTable,
    (db.map f).find? (fun t => t.name == nm) = (db.find? (fun t => t.name == nm)).map f := by
  intro db
  induction db with
  | nil => rfl
  | cons t ts ih =>
    simp only [List.map_cons, List.find?_cons]
    rw [hf t]
    cases h : (t.name == nm) <;> simp [h, ih]

theorem filter_map_id_pred (g : SessionRow → SessionRow) (hg : ∀ r, (g r).id = r.id)
    (sid : Nat) : ∀ rows : List SessionRow,
    (rows.map g).filter (fun r => r.id == sid) = (rows.filter (fun r => r.id == sid)).map g := by
  intro rows
  induction rows with
  | nil => rfl
  | cons r rs ih =>
    simp only [List.map_cons, List.filter_cons]
    rw [hg r]
    cases h : (r.id == sid) <;> simp [h, ih]

theorem singleRow_map (g : SessionRow → SessionRow) (hg : ∀ r, (g r).id = r.id)
    (sid : Nat) (rows : List SessionRow) :
    singleRow (rows.map g) sid = (singleRow rows sid).map g := by
  unfold singleRow rowsWithId
  rw [filter_map_id_pred g hg sid rows]
  cases h : rows.filter (fun r => r.id == sid) with
  | nil => rfl
  | cons a l => cases l <;> rfl

theorem singleRow_mem (rows : List SessionRow) (sid : Nat) (r : SessionRow)
    (h : singleRow rows sid = some r) : r.id = sid ∧ r ∈ rows := by
  unfold singleRow rowsWithId at h
  cases hf : rows.filter (fun r => r.id == sid) with
  | nil => rw [hf] at h; exact absurd h (by simp [singleOf])
  | cons a l =>
    cases l with
    | nil =>
      rw [hf] at h
      have ha : a = r := by simpa [singleOf] using h
      subst ha
      have hmem : a ∈ rows.filter (fun r => r.id == sid) := by rw [hf]; exact List.mem_singleton.mpr rfl
      have := List.mem_filter.mp hmem
      exact ⟨by simpa using this.2, this.1⟩
    | cons b l2 =>
      rw [hf] at h
      exact absurd h (by simp [singleOf])

theorem findSession_updateRow (db : List ScheduleTable) (tn : String) (sid : Nat)
    (patch : SessionRow → SessionRow) (hid : ∀ r, (patch r).id = r.id) :
    findSession (updateRow db tn sid patch) tn sid = (findSession db tn sid).map patch := by
  unfold findSession updateRow findTable
  have hg : ∀ r : SessionRow, ((fun r => if r.id == sid then patch r else r) r).id = r.id := by
    intro r; dsimp; split
    · exact hid r
    · rfl
  have hf : ∀ t : ScheduleTable,
      ((fun t => if t.name == tn then
        { t with rows := t.rows.map (fun r => if r.id == sid then patch r else r) } else t) t).name
        = t.name := by
    intro t; dsimp; split <;> rfl
  rw [find?_map_name _ hf tn db]
  cases hft : db.find? (fun t => t.name == tn) with
  | none => rfl
  | some t =>
    have ht : (t.name == tn) = true := by
      simpa using List.find?_some (p := fun t : ScheduleTable => t.name == tn) hft
    simp only [Option.map_some', ht, if_true]
    rw [singleRow_map _ hg sid t.rows]
    cases hsr : singleRow t.rows sid with
    | none => rfl
    | some r =>
      have hrid : r.id = sid := (singleRow_mem t.rows sid r hsr).1
      simp [hrid]

theorem meetingPhase_steps_no_notify (ext : ExtCalls) (db : List ScheduleTable)
    (req : UpdateRequest) (session : SessionRow) (c₁ c₂ : Bool) :
    Step.notify ∉ (meetingPhase ext db req session c₁ c₂).steps ∧
    Step.flagsReset ∉ (meetingPhase ext db req session c₁ c₂).steps := by
  unfold meetingPhase
  repeat' split
  all_goals simp

theorem meetingPhase_db_shape (ext : ExtCalls) (db : List ScheduleTable)
    (req : UpdateRequest) (session : SessionRow) (c₁ c₂ : Bool) :
    (meetingPhase ext db req session c₁ c₂).db = db ∨
    ∃ lnk : Option String, (meetingPhase ext db req session c₁ c₂).db
      = updateRow db req.tableName req.sessionId (fun r => { r with teams_meeting_link := lnk }) := by
  unfold meetingPhase
  repeat' split
  all_goals first
    | exact Or.inl rfl
    | exact Or.inr ⟨_, rfl⟩

theorem meetingPhase_contest_case (ext : ExtCalls) (db : List ScheduleTable)
    (req : UpdateRequest) (session : SessionRow) (c₂ : Bool)
    (h : session.teams_meeting_link = none ∨
         (jsTruthyStr session.teams_meeting_link = true ∧ c₂ = true ∧ ext.tokenOk = true)) :
    (meetingPhase ext db req session true c₂).meetingCreated = false ∧
    ((meetingPhase ext db req session true c₂).db = db ∧ session.teams_meeting_link = none ∨
     (meetingPhase ext db req session true c₂).db
       = updateRow db req.tableName req.sessionId
           (fun r => { r with teams_meeting_link := none })) := by
  unfold meetingPhase
  rcases h with h | ⟨h1, h2, h3⟩
  · simp [h, jsTruthyStr]
  · simp [h1, h2, h3]

theorem mergeLinks_subset_fixed : ∀ (extra base : List String),
    (∀ x ∈ extra, x ∈ base) → mergeLinks base extra = base := by
  intro extra
  induction extra with
  | nil => intro base _; rfl
  | cons l ls ih =>
    intro base h
    unfold mergeLinks
    simp only [List.foldl_cons]
    rw [if_pos (h l (List.mem_cons_self l ls))]
    exact ih base (fun x hx => h x (List.mem_cons_of_mem l hx))

theorem mergeLinks_nodup_disjoint : ∀ (L acc : List String),
    L.Nodup → (∀ x ∈ L, x ∉ acc) → mergeLinks acc L = acc ++ L := by
  intro L
  induction L with
  | nil => intro acc _ _; simp [mergeLinks]
  | cons l ls ih =>
    intro acc hnd hdisj
    unfold mergeLinks
    simp only [List.foldl_cons]
    rw [if_neg (hdisj l (List.mem_cons_self l ls))]
    have h1 : ls.Nodup := (List.nodup_cons.mp hnd).2
    have h2 : ∀ x ∈ ls, x ∉ acc ++ [l] := by
      intro x hx
      simp only [List.mem_append, List.mem_singleton]
      rintro (hc | hc)
      · exact hdisj x (List.mem_cons_of_mem l hx) hc
      · exact (List.nodup_cons.mp hnd).1 (hc ▸ hx)
    have hrec := ih (acc ++ [l]) h1 h2
    rw [show List.foldl (fun acc l => if l ∈ acc then acc else acc ++ [l]) (acc ++ [l]) ls
          = mergeLinks (acc ++ [l]) ls from rfl, hrec]
    simp

theorem mergeNewLinks_subset_fixed : ∀ (extra base : List String),
    (∀ x ∈ extra, jsTrim x = x) → (∀ x ∈ extra, x ∈ base) → mergeNewLinks base extra = base := by
  intro extra
  induction extra with
  | nil => intro base _ _; rfl
  | cons l ls ih =>
    intro base htrim h
    unfold mergeNewLinks
    simp only [List.foldl_cons]
    have hl : jsTrim l ∈ base := by
      rw [htrim l (List.mem_cons_self l ls)]
      exact h l (List.mem_cons_self l ls)
    rw [if_neg (fun hc => hc.2 hl)]
    exact ih base (fun x hx => htrim x (List.mem_cons_of_mem l hx))
      (fun x hx => h x (List.mem_cons_of_mem l hx))

/-! ## Claim theorems -/

/-- C2: for every candidate mentor and session row considered by the
Conflict Detector (a row at the same date/time other than the session
being edited), the candidate is reported busy iff (the row's `mentor_id`
equals the candidate and `swapped_mentor_id` is null) or
(`swapped_mentor_id` equals the candidate); in particular an original
owner who has been swapped away to a different mentor is reported free,
and removing the swap (`swapped_mentor_id` back to null) makes the owner
busy (conflict-eligible) again. -/
theorem busy_predicate_characterization (cand : Nat) (row : SessionRow) :
    (isBusy cand row = true ↔
      ((row.mentor_id = some cand ∧ row.swapped_mentor_id = none) ∨
       row.swapped_mentor_id = some cand)) ∧
    (∀ x : Nat, row.mentor_id = some cand → row.swapped_mentor_id = some x → x ≠ cand →
       isBusy cand row = false) ∧
    (row.mentor_id = some cand → row.swapped_mentor_id = none → isBusy cand row = true) := by
  unfold isBusy
  rcases hm : row.mentor_id with _ | m <;> rcases hs : row.swapped_mentor_id with _ | s <;>
    simp_all

/-- Witness for C2: mentor 5 owns the row but mentor 7 covers it, so 5 is
reported free. -/
theorem busy_predicate_characterization_witness :
    isBusy 5 ⟨1, "2024-02-01", "09:00", some 5, some 7, none, none,
              false, false, none, none, none⟩ = false :=
  (busy_predicate_characterization 5 _).2.1 7 rfl rfl (by decide)

/-- C7 counterexample: merging the list `["a", "a"]` with itself yields
`["a", "a"]`, not its deduplication `["a"]` — `merge(L, L) = dedupe(L)`
fails for inputs that already contain duplicates. -/
theorem merge_self_not_dedupe :
    mergeLinks (["a", "a"]) (["a", "a"]) = ["a", "a"] ∧
    dedupeLinks (["a", "a"]) = ["a"] ∧
    mergeLinks (["a", "a"]) (["a", "a"]) ≠ dedupeLinks (["a", "a"]) := by
  decide

/-- C7 (amended): merging a link list with itself returns it unchanged
(the merge appends only absent links, so it introduces no new duplicates
and preserves order), and it equals the first-occurrence deduplication
exactly on duplicate-free lists; the POST append behaves the same on
trimmed links (the shape `parseLinks` always produces). -/
theorem merge_self_characterization :
    (∀ L : List String, mergeLinks L L = L) ∧
    (∀ L : List String, L.Nodup → mergeLinks L L = dedupeLinks L) ∧
    (∀ L : List String, (∀ x ∈ L, jsTrim x = x) → mergeNewLinks L L = L) := by
  refine ⟨?_, ?_, ?_⟩
  · intro L; exact mergeLinks_subset_fixed L L (fun _ hx => hx)
  · intro L h
    rw [mergeLinks_subset_fixed L L (fun _ hx => hx)]
    unfold dedupeLinks
    rw [mergeLinks_nodup_disjoint L [] h (by simp)]
    simp
  · intro L h; exact mergeNewLinks_subset_fixed L L h (fun _ hx => hx)

/-- Witness for C7 (amended) at the duplicate-free list `["a", "b"]`. -/
theorem merge_self_characterization_witness :
    mergeLinks (["a", "b"]) (["a", "b"]) = dedupeLinks (["a", "b"]) :=
  merge_self_characterization.2.1 (["a", "b"]) (by decide)

/-- C9: the orchestrator's meeting window is NOT always 90 minutes: at
23:00 (minute 1380 of day 100) the end datetime handed to meeting
creation carries the start's calendar date with clock time
`(1380 + 90) mod 1440 = 30`, so the end lies 22.5 hours BEFORE the start
instead of 90 minutes after it; away from midnight (e.g. 10:00) the window
is the intended 90 minutes, and the swap flow's window is genuinely
start + 60 minutes. -/
theorem meeting_window_midnight_bug :
    meetingStartAbs 100 1380 = 145380 ∧
    meetingEndAbs 100 1380 = 144030 ∧
    meetingEndAbs 100 1380 ≠ meetingStartAbs 100 1380 + 90 ∧
    meetingEndAbs 100 1380 < meetingStartAbs 100 1380 ∧
    meetingEndAbs 100 600 = meetingStartAbs 100 600 + 90 ∧
    swapMeetingEndAbs (meetingStartAbs 100 1380) = meetingStartAbs 100 1380 + 60 := by
  decide

/-- C10: the PUT material-delete touches exactly one column: a link found
in `initial_session_material` is removed only there (even if it also
occurs in `session_material`), otherwise a link found in
`session_material` is removed only there, and a link in neither column
yields not-found with no update at all. -/
theorem material_delete_frame (row : SessionRow) (link : String) :
    (link ∈ parseLinks row.initial_session_material →
      putSessionMaterial row link =
        some ({ row with initial_session_material :=
                  (some (String.intercalate (", ")
                    ((parseLinks row.initial_session_material).filter (fun l => !(l == link))))) },
              "initial_session_material")) ∧
    (link ∉ parseLinks row.initial_session_material →
     link ∈ parseLinks row.session_material →
      putSessionMaterial row link =
        some ({ row with session_material :=
                  (some (String.intercalate (", ")
                    ((parseLinks row.session_material).filter (fun l => !(l == link))))) },
              "session_material")) ∧
    (link ∉ parseLinks row.initial_session_material →
     link ∉ parseLinks row.session_material →
      putSessionMaterial row link = none) := by
  unfold putSessionMaterial deleteMaterialLink
  refine ⟨?_, ?_, ?_⟩
  · intro h; rw [if_pos h]
  · intro h1 h2; rw [if_neg h1, if_pos h2]
  · intro h1 h2; rw [if_neg h1, if_neg h2]

/-- Concrete row for the C10 witness: the link `"a"` sits in BOTH columns. -/
def c10row : SessionRow :=
  ⟨1, "2024-01-10", "10:00", none, none, none, none, false, false, none,
   some ("a, b"), some ("a, c")⟩

/-- Witness for C10: deleting `"a"` from a row holding it in both columns
removes it from `initial_session_material` only. -/
theorem material_delete_frame_witness :
    putSessionMaterial c10row ("a")
      = some ({ c10row with initial_session_material :=
          (some (String.intercalate (", ")
            ((parseLinks c10row.initial_session_material).filter (fun l => !(l == "a"))))) },
        "initial_session_material") :=
  (material_delete_frame c10row ("a")).1 (by decide)

/-- C1: when the conflict scan reports a hit for the candidate covering
mentor at the session's date and time, the swap handler answers with the
structured Conflict error and the schedule database — in particular every
field of the session record, `swapped_mentor_id` included — is exactly what
it was before the request: the scan completes and returns before any store
update is issued. -/
theorem swap_conflict_gate (db : List ScheduleTable) (req : SwapRequest)
    (session : SessionRow) (cand : Nat) (info : ConflictInfo)
    (hT : req.tableName ≠ "") (hS : req.sessionId ≠ 0)
    (hfind : findSession db req.tableName req.sessionId = some session)
    (hcand : req.swappedMentorId = some cand) (hc0 : cand ≠ 0)
    (hhit : detectConflict db cand session.date session.time req.tableName req.sessionId
            = some info) :
    swapMentorPOST db req = (SwapResponse.conflict info, db) := by
  unfold swapMentorPOST
  simp [hT, hS, hfind, hcand, hc0, hhit]

/-- Schedule database for the C1 witness: mentor 7 already teaches
Adv 3.1 at the same slot the Basic 6.0 session occupies. -/
def c1db : List ScheduleTable :=
  [⟨"basic6_0_schedule",
    [⟨1, "2024-02-01", "09:00", some 3, none, none, none, false, false,
      some ("Maths"), none, none⟩]⟩,
   ⟨"adv3_1_schedule",
    [⟨9, "2024-02-01", "09:00", some 7, none, none, none, false, false,
      some ("DSA"), none, none⟩]⟩]

/-- Witness for C1: swapping mentor 7 into the Basic 6.0 session is
rejected with the Adv 3.1 conflict and the database is untouched. -/
theorem swap_conflict_gate_witness :
    swapMentorPOST c1db ⟨"basic6_0_schedule", 1, some 7⟩
      = (SwapResponse.conflict ⟨"adv3_1_schedule", "Adv 3.1", "DSA"⟩, c1db) :=
  swap_conflict_gate c1db ⟨"basic6_0_schedule", 1, some 7⟩
    ⟨1, "2024-02-01", "09:00", some 3, none, none, none, false, false,
     some ("Maths"), none, none⟩ 7 ⟨"adv3_1_schedule", "Adv 3.1", "DSA"⟩
    (by decide) (by decide) (by decide) rfl (by decide) (by decide)

theorem mem_notify_steps_iff (ms : List Step) (hn : Step.notify ∉ ms) (b c : Bool) :
    (Step.notify ∈ ms ++ (if b then [Step.notify] else [])
        ++ (if c then [Step.flagsReset] else []) ↔ b = true) := by
  cases b <;> cases c <;> simp_all

/-- C4: with the session fetched, the notification dispatch step runs iff
the changed field is `swapped_mentor_id` (a swap always notifies) or one of
the session's `email_sent`/`whatsapp_sent` flags is set; in every other
case the dispatch step is skipped and no recipient is contacted at all. -/
theorem notification_gate (env : Env) (ext : ExtCalls) (db : List ScheduleTable)
    (req : UpdateRequest) (session : SessionRow)
    (hT : req.tableName ≠ "") (hS : req.sessionId ≠ 0)
    (hfind : findSession db req.tableName req.sessionId = some session) :
    (Step.notify ∈ (sessionUpdatePOST env ext db req).steps ↔
      (req.changedField = some ("swapped_mentor_id") ∨ session.email_sent = true ∨
       session.whatsapp_sent = true)) ∧
    ((req.changedField ≠ some ("swapped_mentor_id") ∧ session.email_sent = false ∧
      session.whatsapp_sent = false) → (sessionUpdatePOST env ext db req).sends = []) := by
  have hcond : (req.tableName == "" || req.sessionId == 0) = false := by
    simp [hT, hS]
  have hmp := meetingPhase_steps_no_notify ext db req session
      (isContestStr session.session_type || isContestStr req.newSessionType)
      (isContestStr req.newSessionType)
  simp only [sessionUpdatePOST, hcond, Bool.false_eq_true, if_false, hfind]
  constructor
  · rw [mem_notify_steps_iff _ hmp.1]
    simp [Bool.or_eq_true]
    tauto
  · rintro ⟨h1, h2, h3⟩
    have hgate : (req.changedField == some ("swapped_mentor_id") || session.email_sent
        || session.whatsapp_sent) = false := by
      simp [h1, h2, h3]
    simp [hgate]

/-- Database and request for the C4 witness: a reschedule on a session
whose flags are both false. -/
def c4db : List ScheduleTable :=
  [⟨"basic6_0_schedule",
    [⟨1, "2024-01-10", "10:00", some 7, none, none, none, false, false,
      some ("Maths"), none, none⟩]⟩]

def c4env : Env :=
  ⟨[⟨some ("Stu"), some ("stu@x.com"), none, "Basic", "6.0"⟩],
   [⟨7, some ("Mentor"), some ("m@x.com"), none⟩],
   [⟨some ("Admin"), some ("a@x.com"), none⟩]⟩

def c4ext : ExtCalls := ⟨false, false, none, fun _ => true, fun _ => true⟩

def c4req : UpdateRequest :=
  { tableName := "basic6_0_schedule", sessionId := 1,
    oldDate := some ("2024-01-10"), newDate := some ("2024-01-12"),
    changedField := some ("date") }

/-- Witness for C4: a date change on a never-announced session dispatches
nothing — the notify step is absent and nobody is contacted. -/
theorem notification_gate_witness :
    Step.notify ∉ (sessionUpdatePOST c4env c4ext c4db c4req).steps ∧
    (sessionUpdatePOST c4env c4ext c4db c4req).sends = [] := by
  have h := notification_gate c4env c4ext c4db c4req
    ⟨1, "2024-01-10", "10:00", some 7, none, none, none, false, false,
     some ("Maths"), none, none⟩
    (by decide) (by decide) (by decide)
  refine ⟨fun hmem => ?_, h.2 (by refine ⟨by decide, rfl, rfl⟩)⟩
  rcases h.1.mp hmem with hc | hc | hc
  · exact absurd hc (by decide)
  · exact absurd hc (by decide)
  · exact absurd hc (by decide)

/-- C3: whenever the fetched session had `email_sent` (or `whatsapp_sent`)
set, the orchestrated change leaves the stored session with both flags
false — for every outcome of the meeting phase and of every notification
send — and the executed step trace splits so that every flag-reset step
comes after every dispatch step: the reset runs only after notification
dispatch has completed, never before. -/
theorem flags_reset_invariant (env : Env) (ext : ExtCalls) (db : List ScheduleTable)
    (req : UpdateRequest) (session : SessionRow)
    (hT : req.tableName ≠ "") (hS : req.sessionId ≠ 0)
    (hfind : findSession db req.tableName req.sessionId = some session)
    (hflags : session.email_sent = true ∨ session.whatsapp_sent = true) :
    (∃ row : SessionRow,
       findSession (sessionUpdatePOST env ext db req).db req.tableName req.sessionId
         = some row ∧ row.email_sent = false ∧ row.whatsapp_sent = false) ∧
    (∃ t₁ t₂ : List Step, (sessionUpdatePOST env ext db req).steps = t₁ ++ t₂ ∧
       Step.flagsReset ∉ t₁ ∧ Step.notify ∉ t₂) := by
  have hcond : (req.tableName == "" || req.sessionId == 0) = false := by simp [hT, hS]
  have hpre : (session.email_sent || session.whatsapp_sent) = true := by
    rcases hflags with h | h <;> simp [h]
  have hgate : (req.changedField == some ("swapped_mentor_id") || session.email_sent
      || session.whatsapp_sent) = true := by
    rcases hflags with h | h <;> simp [h]
  have hmp := meetingPhase_steps_no_notify ext db req session
      (isContestStr session.session_type || isContestStr req.newSessionType)
      (isContestStr req.newSessionType)
  have hshape := meetingPhase_db_shape ext db req session
      (isContestStr session.session_type || isContestStr req.newSessionType)
      (isContestStr req.newSessionType)
  simp only [sessionUpdatePOST, hcond, Bool.false_eq_true, if_false, hfind, hpre, hgate,
    Bool.or_true, Bool.true_or, if_true]
  constructor
  · rw [findSession_updateRow _ req.tableName req.sessionId
        (fun r => { r with email_sent := false, whatsapp_sent := false }) (fun r => rfl)]
    rcases hshape with hdb | ⟨lnk, hdb⟩
    · rw [hdb, hfind]
      exact ⟨_, rfl, rfl, rfl⟩
    · rw [hdb, findSession_updateRow _ req.tableName req.sessionId
          (fun r => { r with teams_meeting_link := lnk }) (fun r => rfl), hfind]
      exact ⟨_, rfl, rfl, rfl⟩
  · refine ⟨(meetingPhase ext db req session
        (isContestStr session.session_type || isContestStr req.newSessionType)
        (isContestStr req.newSessionType)).steps ++ [Step.notify],
      [Step.flagsReset], by simp, ?_, by simp⟩
    intro hmem
    rcases List.mem_append.mp hmem with h | h
    · exact hmp.2 h
    · simp at h

/-- Concrete data for the C3 witness: an announced session (flag set)
being rescheduled, with a live meeting link that gets regenerated. -/
def c3db : List ScheduleTable :=
  [⟨"basic6_0_schedule",
    [⟨1, "2024-01-10", "10:00", some 7, none, none, some ("https://teams/meet1"), true, false,
      some ("Maths"), none, none⟩]⟩]

def c3env : Env :=
  ⟨[⟨some ("Stu"), some ("stu3@x.com"), none, "Basic", "6.0"⟩],
   [⟨7, some ("Mentor"), some ("m3@x.com"), none⟩],
   [⟨some ("Admin"), some ("a3@x.com"), none⟩]⟩

def c3ext : ExtCalls := ⟨true, true, some ("https://teams/meet2"), fun _ => true, fun _ => true⟩

def c3req : UpdateRequest :=
  { tableName := "basic6_0_schedule", sessionId := 1,
    oldDate := some ("2024-01-10"), newDate := some ("2024-01-12"),
    oldTime := some ("10:00"), newTime := some ("14:00"),
    changedField := some ("date") }

/-- Witness for C3 at the concrete reschedule of an announced session. -/
theorem flags_reset_invariant_witness :
    (∃ row : SessionRow,
       findSession (sessionUpdatePOST c3env c3ext c3db c3req).db c3req.tableName c3req.sessionId
         = some row ∧ row.email_sent = false ∧ row.whatsapp_sent = false) ∧
    (∃ t₁ t₂ : List Step, (sessionUpdatePOST c3env c3ext c3db c3req).steps = t₁ ++ t₂ ∧
       Step.flagsReset ∉ t₁ ∧ Step.notify ∉ t₂) :=
  flags_reset_invariant c3env c3ext c3db c3req
    ⟨1, "2024-01-10", "10:00", some 7, none, none, some ("https://teams/meet1"), true, false,
     some ("Maths"), none, none⟩
    (by decide) (by decide) (by decide) (Or.inl rfl)

theorem student_send_mem (env : Env) (ext : ExtCalls) (p : NotifyParams) (cohort : CohortInfo)
    (st : StudentRow) (m : String)
    (hcohort : parseCohortFromTableName p.tableName = some cohort)
    (hut : p.updateType = UpdateType.reschedule ∨ p.updateType = UpdateType.details_updated)
    (hst : st ∈ env.students) (hst1 : st.cohortType = cohort.ctype)
    (hst2 : st.cohortNumber = cohort.cnumber)
    (hm : st.email = some m) (hm0 : m ≠ "") :
    Send.mk Channel.email Audience.student m ∈ (sendUpdateNotifications env ext p).2 := by
  have hstmem : st ∈ cohortStudents env cohort := by
    unfold cohortStudents
    rw [List.mem_filter]
    refine ⟨hst, ?_⟩
    simp [hst1, hst2]
  have hne : (cohortStudents env cohort).isEmpty = false :=
    List.isEmpty_eq_false.mpr (List.ne_nil_of_mem hstmem)
  have hact : (!(cohortStudents env cohort).isEmpty
      && (p.updateType == UpdateType.reschedule
          || p.updateType == UpdateType.details_updated)) = true := by
    rw [hne]
    rcases hut with h | h <;> simp [h]
  simp only [sendUpdateNotifications, hcohort, hact, if_true]
  apply List.mem_append_left
  apply List.mem_append_left
  apply List.mem_append_left
  apply List.mem_append_left
  apply List.mem_flatMap.mpr
  refine ⟨st, hstmem, ?_⟩
  apply List.mem_append_left
  simp [emailAttempt, jsTruthyStrOpt, hm, hm0]

/-- Concrete data for C5: a swap to mentor 42 on a session that has never
been announced (both flags false); one cohort student with a valid email. -/
def c5db : List ScheduleTable :=
  [⟨"basic6_0_schedule",
    [⟨1, "2024-01-10", "10:00", some 7, some 42, none, none, false, false,
      some ("Maths"), none, none⟩]⟩]

def c5env : Env :=
  ⟨[⟨some ("Stu"), some ("stu@x.com"), none, "Basic", "6.0"⟩],
   [⟨7, some ("Orig"), some ("orig@x.com"), none⟩, ⟨42, some ("New"), some ("new@x.com"), none⟩],
   []⟩

def c5ext : ExtCalls := ⟨false, false, none, fun _ => true, fun _ => true⟩

def c5req : UpdateRequest :=
  { tableName := "basic6_0_schedule", sessionId := 1,
    changedField := some ("swapped_mentor_id"),
    oldMentorId := some 7, newMentorId := some 42,
    skipMeetingRegeneration := true }

/-- C5 counterexample: a mentor swap processed while both `email_sent` and
`whatsapp_sent` are false still emails the cohort student — the claim that
students receive no notification on such swaps is false on the code. -/
theorem swap_notifies_students_counterexample :
    findSession c5db ("basic6_0_schedule") 1
      = some ⟨1, "2024-01-10", "10:00", some 7, some 42, none, none, false, false,
              some ("Maths"), none, none⟩ ∧
    (sessionUpdatePOST c5env c5ext c5db c5req).results.notificationsSent.studentsSent = 1 ∧
    Send.mk Channel.email Audience.student ("stu@x.com")
      ∈ (sessionUpdatePOST c5env c5ext c5db c5req).sends := by
  refine ⟨by decide, by decide, by decide⟩

/-- C5 (amended): a mentor-swap change is always dispatched, and because a
swap is classified `details_updated` — a class the student fan-out loop
accepts — every cohort student with a truthy email is emailed even when
both `email_sent` and `whatsapp_sent` were false before the change:
students are notified on every processed swap, not only after a prior
announcement. -/
theorem swap_notifies_students (env : Env) (ext : ExtCalls) (db : List ScheduleTable)
    (req : UpdateRequest) (session : SessionRow) (cohort : CohortInfo)
    (st : StudentRow) (m : String)
    (hT : req.tableName ≠ "") (hS : req.sessionId ≠ 0)
    (hfind : findSession db req.tableName req.sessionId = some session)
    (hcf : req.changedField = some ("swapped_mentor_id"))
    (he : session.email_sent = false) (hw : session.whatsapp_sent = false)
    (hcohort : parseCohortFromTableName req.tableName = some cohort)
    (hst : st ∈ env.students) (hst1 : st.cohortType = cohort.ctype)
    (hst2 : st.cohortNumber = cohort.cnumber)
    (hm : st.email = some m) (hm0 : m ≠ "") :
    Step.notify ∈ (sessionUpdatePOST env ext db req).steps ∧
    Send.mk Channel.email Audience.student m ∈ (sessionUpdatePOST env ext db req).sends := by
  have hcond : (req.tableName == "" || req.sessionId == 0) = false := by simp [hT, hS]
  have hgate : (req.changedField == some ("swapped_mentor_id") || session.email_sent
      || session.whatsapp_sent) = true := by simp [hcf]
  simp only [sessionUpdatePOST, hcond, Bool.false_eq_true, if_false, hfind, hgate, if_true]
  constructor
  · exact List.mem_append_left _ (List.mem_append_right _ (by simp))
  · have hut : computeUpdateType req.changedField = UpdateType.details_updated := by
      rw [hcf]; decide
    exact student_send_mem env ext _ cohort st m hcohort (Or.inr hut) hst hst1 hst2 hm hm0

/-- Witness for C5 (amended) at the concrete never-announced swap. -/
theorem swap_notifies_students_witness :
    Step.notify ∈ (sessionUpdatePOST c5env c5ext c5db c5req).steps ∧
    Send.mk Channel.email Audience.student ("stu@x.com")
      ∈ (sessionUpdatePOST c5env c5ext c5db c5req).sends :=
  swap_notifies_students c5env c5ext c5db c5req
    ⟨1, "2024-01-10", "10:00", some 7, some 42, none, none, false, false,
     some ("Maths"), none, none⟩
    ⟨"Basic", "6.0"⟩ ⟨some ("Stu"), some ("stu@x.com"), none, "Basic", "6.0"⟩ ("stu@x.com")
    (by decide) (by decide) (by decide) rfl rfl rfl (by decide)
    (by decide) rfl rfl rfl (by decide)

/-- Concrete data for C6: a session that is ALREADY of type contest yet
holds a meeting link, receiving an unrelated subject-name change. -/
def c6db : List ScheduleTable :=
  [⟨"basic6_0_schedule",
    [⟨1, "2024-01-10", "10:00", some 7, none, some ("contest"), some ("https://teams/x"),
      false, false, some ("Contest"), none, none⟩]⟩]

def c6env : Env := ⟨[], [⟨7, some ("M"), some ("m6@x.com"), none⟩], []⟩

def c6ext : ExtCalls := ⟨true, true, some ("https://teams/new"), fun _ => true, fun _ => true⟩

def c6req : UpdateRequest :=
  { tableName := "basic6_0_schedule", sessionId := 1, changedField := some ("subject_name") }

/-- C6 counterexample: for a session already of type contest that holds a
meeting link, an orchestrated change that is not a change *into* contest
leaves the link in place — the stored meeting link is NOT null afterwards,
so the claim's universal "link is null after any orchestrated change"
fails. -/
theorem contest_link_counterexample :
    findSession c6db ("basic6_0_schedule") 1
      = some ⟨1, "2024-01-10", "10:00", some 7, none, some ("contest"), some ("https://teams/x"),
              false, false, some ("Contest"), none, none⟩ ∧
    ((findSession (sessionUpdatePOST c6env c6ext c6db c6req).db ("basic6_0_schedule") 1).map
       (fun r => r.teams_meeting_link)) = some (some ("https://teams/x")) := by
  refine ⟨by decide, by decide⟩

/-- C6 (amended): for a contest session (already contest or becoming
contest) the orchestrator never creates a meeting; and the stored link is
null afterwards provided it was already null, or the change is the change
into contest with the meeting-provider token available and a truthy stored
link (then the old meeting is deleted and the link cleared).  A session
already of type contest that anomalously holds a link keeps it when the
change is not itself the change into contest. -/
theorem contest_no_meeting (env : Env) (ext : ExtCalls) (db : List ScheduleTable)
    (req : UpdateRequest) (session : SessionRow)
    (hT : req.tableName ≠ "") (hS : req.sessionId ≠ 0)
    (hfind : findSession db req.tableName req.sessionId = some session)
    (hcontest : isContestStr session.session_type = true ∨ isContestStr req.newSessionType = true)
    (hlink : session.teams_meeting_link = none ∨
       (jsTruthyStr session.teams_meeting_link = true ∧ isContestStr req.newSessionType = true ∧
        ext.tokenOk = true)) :
    (sessionUpdatePOST env ext db req).results.meetingCreated = false ∧
    (∃ row : SessionRow,
       findSession (sessionUpdatePOST env ext db req).db req.tableName req.sessionId
         = some row ∧ row.teams_meeting_link = none) := by
  have hcond : (req.tableName == "" || req.sessionId == 0) = false := by simp [hT, hS]
  have hc : (isContestStr session.session_type || isContestStr req.newSessionType) = true := by
    rcases hcontest with h | h <;> simp [h]
  have hmc := meetingPhase_contest_case ext db req session (isContestStr req.newSessionType) hlink
  simp only [sessionUpdatePOST, hcond, Bool.false_eq_true, if_false, hfind, hc]
  refine ⟨hmc.1, ?_⟩
  rcases hmc.2 with ⟨hdb, hnone⟩ | hdb
  · cases hpf : (session.email_sent || session.whatsapp_sent) with
    | false =>
      simp only [hpf, Bool.false_eq_true, if_false]
      rw [hdb, hfind]
      exact ⟨session, rfl, hnone⟩
    | true =>
      simp only [hpf, if_true]
      rw [hdb, findSession_updateRow _ req.tableName req.sessionId
          (fun r => { r with email_sent := false, whatsapp_sent := false }) (fun r => rfl), hfind]
      exact ⟨_, rfl, hnone⟩
  · cases hpf : (session.email_sent || session.whatsapp_sent) with
    | false =>
      simp only [hpf, Bool.false_eq_true, if_false]
      rw [hdb, findSession_updateRow _ req.tableName req.sessionId
          (fun r => { r with teams_meeting_link := none }) (fun r => rfl), hfind]
      exact ⟨_, rfl, rfl⟩
    | true =>
      simp only [hpf, if_true]
      rw [hdb, findSession_updateRow _ req.tableName req.sessionId
          (fun r => { r with email_sent := false, whatsapp_sent := false }) (fun r => rfl),
        findSession_updateRow _ req.tableName req.sessionId
          (fun r => { r with teams_meeting_link := none }) (fun r => rfl), hfind]
      exact ⟨_, rfl, rfl⟩

/-- Concrete data for the C6 witness: a normal session with a live link
whose type is changed INTO contest, with the provider token available. -/
def c6wdb : List ScheduleTable :=
  [⟨"basic6_0_schedule",
    [⟨1, "2024-01-10", "10:00", some 7, none, some ("normal"), some ("https://teams/x"),
      true, false, some ("Maths"), none, none⟩]⟩]

def c6wreq : UpdateRequest :=
  { tableName := "basic6_0_schedule", sessionId := 1, changedField := some ("session_type"),
    oldSessionType := some ("normal"), newSessionType := some ("Contest") }

/-- Witness for C6 (amended): changing a linked normal session into a
contest deletes the meeting and leaves the stored link null, with no new
meeting created. -/
theorem contest_no_meeting_witness :
    (sessionUpdatePOST c6env c6ext c6wdb c6wreq).results.meetingCreated = false ∧
    (∃ row : SessionRow,
       findSession (sessionUpdatePOST c6env c6ext c6wdb c6wreq).db c6wreq.tableName
         c6wreq.sessionId = some row ∧ row.teams_meeting_link = none) :=
  contest_no_meeting c6env c6ext c6wdb c6wreq
    ⟨1, "2024-01-10", "10:00", some 7, none, some ("normal"), some ("https://teams/x"),
     true, false, some ("Maths"), none, none⟩
    (by decide) (by decide) (by decide) (Or.inr (by decide)) (Or.inr (by decide))

/-- Concrete data for C8: a session-update on a table whose name does not
parse as `<cohortType><major>_<minor>_schedule`, while an administrator
with a valid email and the session's effective mentor both exist. -/
def c8db : List ScheduleTable :=
  [⟨"badtable",
    [⟨1, "2024-01-10", "10:00", some 7, none, none, none, true, false,
      some ("Maths"), none, none⟩]⟩]

def c8env : Env :=
  ⟨[], [⟨7, some ("M"), some ("m8@x.com"), none⟩], [⟨some ("Admin"), some ("a8@x.com"), none⟩]⟩

def c8ext : ExtCalls := ⟨false, false, none, fun _ => true, fun _ => true⟩

def c8req : UpdateRequest :=
  { tableName := "badtable", sessionId := 1, changedField := some ("date"),
    oldDate := some ("2024-01-10"), newDate := some ("2024-01-12") }

def c8session : SessionRow :=
  ⟨1, "2024-01-10", "10:00", some 7, none, none, none, true, false, some ("Maths"), none, none⟩

/-- C8 counterexample: on an unparseable table name the notification
routine returns immediately, so although an administrator with a valid
email and the effective mentor both exist, NOBODY is contacted — the
claim that mentor and administrators are still notified is false. -/
theorem cohort_parse_failure_counterexample :
    parseCohortFromTableName ("badtable") = none ∧
    c8env.supermentors = [⟨some ("Admin"), some ("a8@x.com"), none⟩] ∧
    (sessionUpdatePOST c8env c8ext c8db c8req).sends = [] ∧
    (sessionUpdatePOST c8env c8ext c8db c8req).results.notificationsSent.supermentorsSent = 0 ∧
    (sessionUpdatePOST c8env c8ext c8db c8req).results.notificationsSent.mentorSent = false := by
  refine ⟨by decide, rfl, by decide, by decide, by decide⟩

/-- C8 (amended): a table name that fails to parse blocks ALL
notifications, not only student ones: `sendUpdateNotifications` returns
its zero-initialised result at once and attempts no send to anybody —
students, mentors and administrators alike. -/
theorem cohort_parse_failure_blocks_all (env : Env) (ext : ExtCalls) (p : NotifyParams)
    (h : parseCohortFromTableName p.tableName = none) :
    sendUpdateNotifications env ext p = (zeroNotifyResult, []) := by
  unfold sendUpdateNotifications
  rw [h]

/-- Witness for C8 (amended) at the concrete malformed table name. -/
theorem cohort_parse_failure_blocks_all_witness :
    sendUpdateNotifications c8env c8ext
      ⟨"badtable", c8session, "2024-01-10", "10:00", "2024-01-12", "14:00",
       UpdateType.reschedule, none, none, none, some ("date")⟩ = (zeroNotifyResult, []) :=
  cohort_parse_failure_blocks_all c8env c8ext _ (by decide)
